import Mathlib

/-!
Verification of the Unified TickTick API routing layer (ticktick-mcp).

This development gives a shallow embedding of the repository's core logic:

* `Mock` models the reference state-machine semantics of the unified API as
  implemented by `MockUnifiedAPI` in `tests/conftest.py` (tag merge, folder
  deletion cascade, task completion).  Python dicts are modelled as
  association lists, `str.lower()` as a character-wise ASCII lowering, and
  `datetime.now()` as an explicit clock parameter.
* `Unified` models the routing façade `UnifiedTickTickAPI` from
  `src/ticktick_mcp/unified/api.py`.  The two upstream HTTP clients are
  external collaborators, so each upstream call is resolved by an explicit
  environment of responses, and every façade operation returns its result
  together with the trace of upstream calls it issued.
-/

/-- Character-wise lowering of a string, modelling Python `str.lower()` on the
ASCII letters (the range handled by `Char.toLower`). -/
def pyLower (s : String) : String := ⟨s.data.map Char.toLower⟩

/-- `Char.toLower` shifts the code point of an upper-case ASCII letter by 32
and leaves every other character unchanged. -/
theorem char_toLower_toNat (c : Char) :
    (Char.toLower c).toNat = if 65 ≤ c.toNat ∧ c.toNat ≤ 90 then c.toNat + 32 else c.toNat := by
  show (let n := c.toNat; if n ≥ 65 ∧ n ≤ 90 then Char.ofNat (n + 32) else c).toNat = _
  simp only []
  split
  · rename_i h
    have hv : Char.isValidCharNat (c.toNat + 32) := by left; omega
    rw [Char.ofNat, dif_pos hv]
    simp [Char.ofNatAux, Char.toNat]
    rfl
  · rfl

/-- Lowering a character twice is the same as lowering it once. -/
theorem char_toLower_idem (c : Char) : (Char.toLower c).toLower = Char.toLower c := by
  have h1 := char_toLower_toNat c
  have h2 := char_toLower_toNat (Char.toLower c)
  apply Char.ext
  apply UInt32.toNat.inj
  show (Char.toLower c).toLower.toNat = (Char.toLower c).toNat
  rw [h2, h1]
  by_cases hc : 65 ≤ c.toNat ∧ c.toNat ≤ 90
  · simp only [if_pos hc]
    rw [if_neg (by omega)]
  · simp only [if_neg hc]

/-- Python `str.lower()` is idempotent. -/
theorem pyLower_idem (s : String) : pyLower (pyLower s) = pyLower s := by
  unfold pyLower
  simp only [List.map_map]
  congr 1
  apply List.map_congr_left
  intro a _
  exact char_toLower_idem a

/-- Lookup in an association list (the model of a Python dict keyed by id). -/
def assocFind? {α : Type} (l : List (String × α)) (k : String) : Option α :=
  match l with
  | [] => none
  | (k2, v) :: rest => if k2 = k then some v else assocFind? rest k

namespace Mock

/-- Modelled from the spec: `constants.py` is not in the repository snapshot.
Section 3 of the spec fixes the status domain as active/completed/abandoned;
the concrete codes follow the V2 wire convention the tests rely on. -/
def statusActive : Int := 0

/-- Modelled from the spec: completed-status code, see `statusActive`. -/
def statusCompleted : Int := 2

/-- Canonical task record, the fields of `models.Task` that the mock
semantics reads or writes. -/
structure MTask where
  id : String
  projectId : String
  title : String
  status : Int
  completedTime : Option Nat
  tags : List String
  parentId : Option String
  childIds : List String
  deriving DecidableEq

/-- Canonical project record (`models.Project`). -/
structure MProject where
  id : String
  name : String
  color : Option String
  kind : String
  viewMode : String
  groupId : Option String
  closed : Bool
  sortOrder : Int
  deriving DecidableEq

/-- Canonical folder record (`models.ProjectGroup`). -/
structure MFolder where
  id : String
  name : String
  sortOrder : Int
  deriving DecidableEq

/-- Canonical tag record (`models.Tag`). -/
structure MTag where
  name : String
  label : String
  color : Option String
  parent : Option String
  deriving DecidableEq

/-- The data stores of `MockUnifiedAPI` (`tests/conftest.py`): dicts keyed by
id (tasks, projects, folders) or by canonical lowercase name (tags). -/
structure MockState where
  tasks : List (String × MTask)
  projects : List (String × MProject)
  folders : List (String × MFolder)
  tags : List (String × MTag)
  deriving DecidableEq

/-- Error raised by the mock operations (`TickTickNotFoundError(msg)`). -/
inductive MockErr
  | notFound (msg : String)
  deriving DecidableEq

/-- `MockUnifiedAPI.complete_task`: mark the task completed and stamp the
completion time; `datetime.now()` is the explicit `now` argument.  The
`projectId` argument is accepted but unused, exactly as in the source. -/
def completeTask (st : MockState) (now : Nat) (taskId projectId : String) :
    Except MockErr MockState :=
  match assocFind? st.tasks taskId with
  | none => Except.error (MockErr.notFound ("Task not found: " ++ taskId))
  | some _ => Except.ok { st with
      tasks := st.tasks.map (fun p =>
        if p.1 = taskId then
          (p.1, { p.2 with status := statusCompleted, completedTime := some now })
        else p) }

/-- `MockUnifiedAPI.delete_project_group`: drop the folder and null out
`group_id` on every project that referenced it. -/
def deleteProjectGroup (st : MockState) (groupId : String) :
    Except MockErr MockState :=
  match assocFind? st.folders groupId with
  | none => Except.error (MockErr.notFound ("Folder not found: " ++ groupId))
  | some _ => Except.ok { st with
      folders := st.folders.filter (fun p => p.1 ≠ groupId),
      projects := st.projects.map (fun p =>
        if p.2.groupId = some groupId then (p.1, { p.2 with groupId := none }) else p) }

/-- The per-task tag rewrite inside `MockUnifiedAPI.merge_tags`: if the task
references the source tag, drop every spelling of it and append the target
name unless some spelling of the target is already present. -/
def migrateTaskTags (sourceName targetName : String) (tags : List String) :
    List String :=
  if sourceName ∈ tags.map pyLower then
    let tags2 := tags.filter (fun x => pyLower x ≠ sourceName)
    if targetName ∈ tags2.map pyLower then tags2 else tags2 ++ [targetName]
  else tags

/-- `MockUnifiedAPI.merge_tags`: validate that source and target exist
(with distinct not-found messages), migrate tag membership on every task,
then delete the source tag. -/
def mergeTags (st : MockState) (source target : String) :
    Except MockErr MockState :=
  let sourceName := pyLower source
  let targetName := pyLower target
  if (assocFind? st.tags sourceName).isNone then
    Except.error (MockErr.notFound ("Source tag not found: " ++ source))
  else if (assocFind? st.tags targetName).isNone then
    Except.error (MockErr.notFound ("Target tag not found: " ++ target))
  else
    Except.ok { st with
      tasks := st.tasks.map (fun p =>
        (p.1, { p.2 with tags := migrateTaskTags sourceName targetName p.2.tags })),
      tags := st.tags.filter (fun p => p.1 ≠ sourceName) }

/-- `MockUnifiedAPI.list_tags`: the values of the tags dict. -/
def listTags (st : MockState) : List MTag := st.tags.map (fun p => p.2)

end Mock

/-- Mapping commutes with filtering by a predicate on the mapped value. -/
theorem map_filter_comp {α β : Type} (f : α → β) (p : β → Bool) (l : List α) :
    (l.filter (fun x => p (f x))).map f = (l.map f).filter p := by
  induction l with
  | nil => rfl
  | cons a t ih =>
    by_cases h : p (f a)
    · simp [List.filter_cons, h, ih]
    · simp [List.filter_cons, h, ih]

/-- After filtering out a key, lookup of that key fails. -/
theorem assocFind?_filter_ne {α : Type} (l : List (String × α)) (k : String) :
    assocFind? (l.filter (fun p => p.1 ≠ k)) k = none := by
  induction l with
  | nil => rfl
  | cons a t ih =>
    obtain ⟨k2, v⟩ := a
    simp only [decide_not] at ih ⊢
    by_cases h : k2 = k
    · simp [List.filter_cons, h, ih]
    · simp [List.filter_cons, h, assocFind?, ih]

/-- Rewriting the value at one key commutes with lookup of that key. -/
theorem assocFind?_map_upd {α : Type} (l : List (String × α)) (k : String) (g : α → α) :
    assocFind? (l.map (fun p => if p.1 = k then (p.1, g p.2) else p)) k
      = (assocFind? l k).map g := by
  induction l with
  | nil => rfl
  | cons a t ih =>
    obtain ⟨k2, v⟩ := a
    simp only [List.map_cons]
    by_cases h : k2 = k
    · subst h
      rw [show (if (k2, v).1 = k2 then ((k2, v).1, g (k2, v).2) else (k2, v)) = (k2, g v) from
        if_pos rfl]
      simp [assocFind?]
    · rw [show (if (k2, v).1 = k then ((k2, v).1, g (k2, v).2) else (k2, v)) = (k2, v) from
        if_neg h]
      simp [assocFind?, h, ih]

/-- Migrating a set-like tag list that references the source leaves exactly one
spelling of the target. -/
theorem migrate_count (sourceName targetName : String) (tags : List String)
    (hnd : (tags.map pyLower).Nodup) (hmem : sourceName ∈ tags.map pyLower)
    (hid : pyLower targetName = targetName) :
    List.count targetName ((Mock.migrateTaskTags sourceName targetName tags).map pyLower)
      = 1 := by
  unfold Mock.migrateTaskTags
  rw [if_pos hmem]
  simp only []
  have hf : (tags.filter (fun x => pyLower x ≠ sourceName)).map pyLower
      = (tags.map pyLower).filter (fun y => y ≠ sourceName) :=
    map_filter_comp pyLower (fun y => decide (y ≠ sourceName)) tags
  by_cases ht : targetName ∈ (tags.filter (fun x => pyLower x ≠ sourceName)).map pyLower
  · rw [if_pos ht]
    have hnd2 : ((tags.filter (fun x => pyLower x ≠ sourceName)).map pyLower).Nodup := by
      rw [hf]
      exact hnd.filter _
    exact List.count_eq_one_of_mem hnd2 ht
  · rw [if_neg ht]
    rw [List.map_append, List.count_append, List.count_eq_zero_of_not_mem ht]
    simp [hid]

/-- Claim C6: `merge_tags` validates that both the source and the target tag
exist, raising a not-found error that distinguishes a missing source from a
missing target; on success it migrates every task referencing the source tag
to the target with deduplication (the task ends up with the target exactly
once) and deletes the source tag, so `list_tags` no longer contains it. -/
theorem merge_tags_migrates_and_deletes_source
    (st : Mock.MockState) (source target : String) :
    ((assocFind? st.tags (pyLower source)) = none →
      Mock.mergeTags st source target
        = Except.error (Mock.MockErr.notFound ("Source tag not found: " ++ source)))
  ∧ ((assocFind? st.tags (pyLower source)) ≠ none →
     (assocFind? st.tags (pyLower target)) = none →
      Mock.mergeTags st source target
        = Except.error (Mock.MockErr.notFound ("Target tag not found: " ++ target)))
  ∧ ((assocFind? st.tags (pyLower source)) ≠ none →
     (assocFind? st.tags (pyLower target)) ≠ none →
     (∀ p ∈ st.tags, p.1 = p.2.name) →
     (∀ p ∈ st.tasks, (p.2.tags.map pyLower).Nodup) →
     ∃ st2, Mock.mergeTags st source target = Except.ok st2
       ∧ (∀ tg ∈ Mock.listTags st2, tg.name ≠ pyLower source)
       ∧ (∀ p ∈ st.tasks, pyLower source ∈ p.2.tags.map pyLower →
            ∃ t2, (p.1, t2) ∈ st2.tasks
              ∧ List.count (pyLower target) (t2.tags.map pyLower) = 1)) := by
  refine ⟨?_, ?_, ?_⟩
  · intro h1
    simp [Mock.mergeTags, h1]
  · intro h1 h2
    rw [Mock.mergeTags]
    simp only []
    rw [if_neg (by simp [Option.isNone_iff_eq_none, h1]), if_pos (by
      simp [Option.isNone_iff_eq_none, h2])]
  · intro h1 h2 hkeys hset
    refine ⟨{ st with
        tasks := st.tasks.map (fun p =>
          (p.1, { p.2 with tags :=
            Mock.migrateTaskTags (pyLower source) (pyLower target) p.2.tags })),
        tags := st.tags.filter (fun p => p.1 ≠ pyLower source) }, ?_, ?_, ?_⟩
    · rw [Mock.mergeTags]
      simp only []
      rw [if_neg (by simp [Option.isNone_iff_eq_none, h1]),
        if_neg (by simp [Option.isNone_iff_eq_none, h2])]
    · intro tg htg
      obtain ⟨p, hpmem, hpeq⟩ := List.mem_map.mp htg
      have hp2 := List.mem_filter.mp hpmem
      have hkey := hkeys p hp2.1
      have hne : p.1 ≠ pyLower source := by simpa using hp2.2
      rw [← hpeq, ← hkey]
      exact hne
    · intro p hp hmem
      refine ⟨{ p.2 with tags :=
          Mock.migrateTaskTags (pyLower source) (pyLower target) p.2.tags }, ?_, ?_⟩
      · exact List.mem_map_of_mem _ hp
      · exact migrate_count (pyLower source) (pyLower target) p.2.tags
          (hset p hp) hmem (pyLower_idem target)

/-- A concrete two-tag, two-task state for exercising the merge semantics. -/
def mergeW : Mock.MockState where
  tasks :=
    [("t1",
      { id := "t1", projectId := "p1", title := "A", status := 0,
        completedTime := none, tags := ["Urgent", "important"],
        parentId := none, childIds := [] }),
     ("t2",
      { id := "t2", projectId := "p1", title := "B", status := 0,
        completedTime := none, tags := ["urgent"],
        parentId := none, childIds := [] })]
  projects := []
  folders := []
  tags :=
    [("urgent", { name := "urgent", label := "Urgent", color := none, parent := none }),
     ("important", { name := "important", label := "important", color := none, parent := none })]

/-- Witness for C6 at a concrete state: merging Urgent into Important deletes
the source tag and leaves each migrated task with the target exactly once. -/
theorem merge_tags_migrates_and_deletes_source_witness :
    ∃ st2, Mock.mergeTags mergeW ("Urgent") ("Important") = Except.ok st2
      ∧ (∀ tg ∈ Mock.listTags st2, tg.name ≠ pyLower ("Urgent"))
      ∧ (∀ p ∈ mergeW.tasks, pyLower ("Urgent") ∈ p.2.tags.map pyLower →
           ∃ t2, (p.1, t2) ∈ st2.tasks
             ∧ List.count (pyLower ("Important")) (t2.tags.map pyLower) = 1) :=
  (merge_tags_migrates_and_deletes_source mergeW ("Urgent") ("Important")).2.2
    (by decide) (by decide) (by decide) (by decide)

/-- Claim C8: deleting a folder removes only the folder: every project whose
`group_id` referenced it keeps all its other fields and gets `group_id`
nulled, projects and tasks are not deleted, and other folders survive. -/
theorem delete_folder_ungroups_projects (st : Mock.MockState) (groupId : String)
    (h : assocFind? st.folders groupId ≠ none) :
    ∃ st2, Mock.deleteProjectGroup st groupId = Except.ok st2
      ∧ assocFind? st2.folders groupId = none
      ∧ st2.tasks = st.tasks
      ∧ st2.tags = st.tags
      ∧ st2.projects.length = st.projects.length
      ∧ (∀ p ∈ st.projects,
          (p.1, { p.2 with groupId :=
            if p.2.groupId = some groupId then none else p.2.groupId }) ∈ st2.projects)
      ∧ (∀ p ∈ st.folders, p.1 ≠ groupId → p ∈ st2.folders) := by
  obtain ⟨v, hv⟩ : ∃ v, assocFind? st.folders groupId = some v := by
    cases hx : assocFind? st.folders groupId
    · exact absurd hx h
    · exact ⟨_, rfl⟩
  refine ⟨{ st with
      folders := st.folders.filter (fun p => p.1 ≠ groupId),
      projects := st.projects.map (fun p =>
        if p.2.groupId = some groupId then (p.1, { p.2 with groupId := none }) else p) },
    ?_, ?_, rfl, rfl, ?_, ?_, ?_⟩
  · simp [Mock.deleteProjectGroup, hv]
  · exact assocFind?_filter_ne st.folders groupId
  · simp
  · intro p hp
    have hm := List.mem_map_of_mem (f := fun p =>
      if p.2.groupId = some groupId then (p.1, { p.2 with groupId := none }) else p) hp
    by_cases hg : p.2.groupId = some groupId
    · simpa [hg] using hm
    · simpa [hg] using hm
  · intro p hp hne
    exact List.mem_filter.mpr ⟨hp, by simp [hne]⟩

/-- A concrete state with one folder and two projects, one of them grouped. -/
def folderW : Mock.MockState where
  tasks :=
    [("t1",
      { id := "t1", projectId := "p1", title := "A", status := 0,
        completedTime := none, tags := [], parentId := none, childIds := [] })]
  projects :=
    [("p1",
      { id := "p1", name := "Client", color := none, kind := "TASK",
        viewMode := "list", groupId := some "f1", closed := false, sortOrder := 0 }),
     ("p2",
      { id := "p2", name := "Other", color := none, kind := "TASK",
        viewMode := "list", groupId := none, closed := false, sortOrder := 1 })]
  folders := [("f1", { id := "f1", name := "Work", sortOrder := 0 })]
  tags := []

/-- Witness for C8 at a concrete state. -/
theorem delete_folder_ungroups_projects_witness :
    ∃ st2, Mock.deleteProjectGroup folderW ("f1") = Except.ok st2
      ∧ assocFind? st2.folders ("f1") = none
      ∧ st2.tasks = folderW.tasks
      ∧ st2.tags = folderW.tags
      ∧ st2.projects.length = folderW.projects.length
      ∧ (∀ p ∈ folderW.projects,
          (p.1, { p.2 with groupId :=
            if p.2.groupId = some ("f1") then none else p.2.groupId }) ∈ st2.projects)
      ∧ (∀ p ∈ folderW.folders, p.1 ≠ ("f1") → p ∈ st2.folders) :=
  delete_folder_ungroups_projects folderW ("f1") (by decide)

/-- Claim C9: completing the same task twice (at clock values `now1` then
`now2`) yields exactly the state of completing it once at `now2`; after the
first call the task is completed and carries a completion timestamp. -/
theorem complete_task_idempotent (st : Mock.MockState) (now1 now2 : Nat)
    (tid pid : String) (h : assocFind? st.tasks tid ≠ none) :
    Except.bind (Mock.completeTask st now1 tid pid)
        (fun s => Mock.completeTask s now2 tid pid)
      = Mock.completeTask st now2 tid pid
    ∧ ∃ st1, Mock.completeTask st now1 tid pid = Except.ok st1
        ∧ ∃ t, assocFind? st1.tasks tid = some t
            ∧ t.status = Mock.statusCompleted ∧ t.completedTime = some now1 := by
  obtain ⟨t0, ht0⟩ : ∃ v, assocFind? st.tasks tid = some v := by
    cases hx : assocFind? st.tasks tid
    · exact absurd hx h
    · exact ⟨_, rfl⟩
  have h1 : Mock.completeTask st now1 tid pid = Except.ok { st with
      tasks := st.tasks.map (fun p =>
        if p.1 = tid then
          (p.1, { p.2 with status := Mock.statusCompleted, completedTime := some now1 })
        else p) } := by
    simp [Mock.completeTask, ht0]
  have hfind1 : assocFind? (st.tasks.map (fun p =>
      if p.1 = tid then
        (p.1, { p.2 with status := Mock.statusCompleted, completedTime := some now1 })
      else p)) tid
      = some { t0 with status := Mock.statusCompleted, completedTime := some now1 } := by
    rw [assocFind?_map_upd st.tasks tid (fun t =>
      { t with status := Mock.statusCompleted, completedTime := some now1 })]
    rw [ht0]
    rfl
  have hmap : (st.tasks.map (fun p =>
      if p.1 = tid then
        (p.1, { p.2 with status := Mock.statusCompleted, completedTime := some now1 })
      else p)).map (fun p =>
      if p.1 = tid then
        (p.1, { p.2 with status := Mock.statusCompleted, completedTime := some now2 })
      else p)
      = st.tasks.map (fun p =>
      if p.1 = tid then
        (p.1, { p.2 with status := Mock.statusCompleted, completedTime := some now2 })
      else p) := by
    rw [List.map_map]
    apply List.map_congr_left
    intro p _
    obtain ⟨k, t⟩ := p
    by_cases hp : k = tid
    · simp [Function.comp, hp]
    · simp [Function.comp, hp]
  refine ⟨?_, ⟨_, h1, _, hfind1, rfl, rfl⟩⟩
  rw [h1]
  show Mock.completeTask _ now2 tid pid = _
  simp [Mock.completeTask, hfind1, ht0, hmap]

/-- Witness for C9 at a concrete state and concrete clock values. -/
theorem complete_task_idempotent_witness :
    Except.bind (Mock.completeTask folderW 5 ("t1") ("p1"))
        (fun s => Mock.completeTask s 7 ("t1") ("p1"))
      = Mock.completeTask folderW 7 ("t1") ("p1")
    ∧ ∃ st1, Mock.completeTask folderW 5 ("t1") ("p1") = Except.ok st1
        ∧ ∃ t, assocFind? st1.tasks ("t1") = some t
            ∧ t.status = Mock.statusCompleted ∧ t.completedTime = some 5 :=
  complete_task_idempotent folderW 5 7 ("t1") ("p1") (by decide)

namespace Unified

/-- Raw task payload returned by either upstream client; the canonical model
conversions `Task.from_v1` / `Task.from_v2` are data-shape plumbing and are
modelled as the identity on this record. -/
structure TaskData where
  id : String
  projectId : String
  title : String
  deriving DecidableEq

/-- Raw project payload returned by either upstream client. -/
structure ProjData where
  id : String
  name : String
  deriving DecidableEq

/-- Raw tag payload inside the V2 full-state sync. -/
structure TagData where
  name : String
  deriving DecidableEq

/-- The V2 full-state sync result, restricted to the parts the façade reads. -/
structure SyncState where
  projectProfiles : List ProjData
  tags : List TagData
  deriving DecidableEq

/-- Modelled from the spec: `exceptions.py` is not in the repository snapshot.
Section 6 fixes the upstream error surface as a three-way classification:
authentication error, not-found error, generic API error. -/
inductive UpErr
  | apiError
  | notFound
  | authError
  deriving DecidableEq

/-- Modelled from the spec: whether an exception is caught by
`except TickTickAPIError`.  Per section 7 a not-found on the primary does
retry on the defined fallback path, so `TickTickNotFoundError` is a
`TickTickAPIError`; authentication errors are surfaced to the caller. -/
def UpErr.isAPIError : UpErr → Bool
  | UpErr.apiError => true
  | UpErr.notFound => true
  | UpErr.authError => false

/-- One upstream call, as issued by the façade (V1 = upstream A, V2 =
upstream B).  Arguments record what the façade passed. -/
inductive UpCall
  | v2GetTask (taskId : String)
  | v1GetTask (projectId taskId : String)
  | v2CreateTask (projectId title : String)
  | v1CreateTask (projectId title : String)
  | v2BatchUpdateTask (taskId : String)
  | v1UpdateTask (projectId taskId : String)
  | v1CompleteTask (projectId taskId : String)
  | v2UpdateTaskStatus (taskId projectId : String)
  | v2DeleteTask (projectId taskId : String)
  | v1DeleteTask (projectId taskId : String)
  | v2Sync
  | v2MoveTask (taskId fromProjectId toProjectId : String)
  | v1GetProject (projectId : String)
  | v2CreateProject (name : String)
  | v1CreateProject (name : String)
  | v2DeleteProject (projectId : String)
  | v1DeleteProject (projectId : String)
  deriving DecidableEq

/-- Responses of the two upstream clients: each call the façade can issue is
resolved by this environment.  Write acknowledgments of the V2 client are the
key list of its `id2etag` mapping. -/
structure Env where
  v2GetTask : String → Except UpErr TaskData
  v1GetTask : String → String → Except UpErr TaskData
  v2CreateTask : String → String → Except UpErr (List String)
  v1CreateTask : String → String → Except UpErr TaskData
  v2BatchUpdateTask : String → Except UpErr Unit
  v1UpdateTask : String → String → Except UpErr TaskData
  v1CompleteTask : String → String → Except UpErr Unit
  v2UpdateTaskStatus : String → String → Except UpErr Unit
  v2DeleteTask : String → String → Except UpErr Unit
  v1DeleteTask : String → String → Except UpErr Unit
  v2Sync : Except UpErr SyncState
  v2MoveTask : String → String → String → Except UpErr Unit
  v1GetProject : String → Except UpErr ProjData
  v2CreateProject : String → Except UpErr (List String)
  v1CreateProject : String → Except UpErr ProjData
  v2DeleteProject : String → Except UpErr Unit
  v1DeleteProject : String → Except UpErr Unit

/-- Façade state: the `_initialized` flag, the router capability flags
(`has_v1` / `has_v2`, fixed after `initialize()`), and the cached inbox id. -/
structure Facade where
  inited : Bool
  hasV1 : Bool
  hasV2 : Bool
  inboxId : Option String
  deriving DecidableEq

/-- Errors raised by façade operations: `TickTickConfigurationError`,
`TickTickAPIUnavailableError(message, operation)`, or an upstream client
exception propagating uncaught through the façade. -/
inductive FErr
  | configErr (msg : String)
  | unavailable (msg op : String)
  | upstream (e : UpErr)
  deriving DecidableEq

/-- The `_ensure_initialized` error message. -/
def notInitMsg : String :=
  "API not initialized. Use await api.initialize() or async context manager."

/-- `close()`: closes the clients and clears `_initialized`. -/
def closeAPI (f : Facade) : Facade := { f with inited := false }

end Unified

namespace Unified

/-- The V1 leg of `get_task` (executed when the V2 attempt was skipped or its
error was caught): `if self._router.has_v1 and project_id:` then a V1 read
whose failure propagates; otherwise `TickTickAPIUnavailableError`. -/
def getTaskV1 (f : Facade) (env : Env) (taskId : String) (projectId : Option String)
    (tr : List UpCall) : Except FErr TaskData × List UpCall :=
  match projectId with
  | some pid =>
    if f.hasV1 then
      match env.v1GetTask pid taskId with
      | Except.ok d => (Except.ok d, tr ++ [UpCall.v1GetTask pid taskId])
      | Except.error e => (Except.error (FErr.upstream e), tr ++ [UpCall.v1GetTask pid taskId])
    else (Except.error (FErr.unavailable "Could not get task" "get_task"), tr)
  | none => (Except.error (FErr.unavailable "Could not get task" "get_task"), tr)

/-- `UnifiedTickTickAPI.get_task`: try V2 first (no project id needed),
catching `TickTickAPIError`; then the V1 leg. -/
def getTask (f : Facade) (env : Env) (taskId : String) (projectId : Option String) :
    Except FErr TaskData × List UpCall :=
  if f.inited then
    if f.hasV2 then
      match env.v2GetTask taskId with
      | Except.ok d => (Except.ok d, [UpCall.v2GetTask taskId])
      | Except.error e =>
        if e.isAPIError then getTaskV1 f env taskId projectId [UpCall.v2GetTask taskId]
        else (Except.error (FErr.upstream e), [UpCall.v2GetTask taskId])
    else getTaskV1 f env taskId projectId []
  else (Except.error (FErr.configErr notInitMsg), [])

/-- The V1 leg of `create_task` (reached only when V2 is not configured or
its acknowledgment listed no id). -/
def createTaskV1 (f : Facade) (env : Env) (pid title : String) (tr : List UpCall) :
    Except FErr TaskData × List UpCall :=
  if f.hasV1 then
    match env.v1CreateTask pid title with
    | Except.ok d => (Except.ok d, tr ++ [UpCall.v1CreateTask pid title])
    | Except.error e => (Except.error (FErr.upstream e), tr ++ [UpCall.v1CreateTask pid title])
  else (Except.error (FErr.unavailable "Could not create task" "create_task"), tr)

/-- `UnifiedTickTickAPI.create_task`: default the project to the inbox, write
through V2, pull the generated id out of `id2etag`, and if one is present
immediately re-read the task through `get_task`; fall through to V1 when V2
is absent or its acknowledgment had no id. -/
def createTask (f : Facade) (env : Env) (title : String) (projectId : Option String) :
    Except FErr TaskData × List UpCall :=
  if f.inited then
    match (match projectId with | some p => some p | none => f.inboxId) with
    | none => (Except.error (FErr.configErr "No project ID provided and inbox ID unknown"), [])
    | some pid =>
      if f.hasV2 then
        match env.v2CreateTask pid title with
        | Except.error e => (Except.error (FErr.upstream e), [UpCall.v2CreateTask pid title])
        | Except.ok ids =>
          match ids.head? with
          | some taskId =>
            let r := getTask f env taskId (some pid)
            (r.1, UpCall.v2CreateTask pid title :: r.2)
          | none => createTaskV1 f env pid title [UpCall.v2CreateTask pid title]
      else createTaskV1 f env pid title []
  else (Except.error (FErr.configErr notInitMsg), [])

/-- `UnifiedTickTickAPI.update_task`: batch-update through V2 then re-read
via `get_task`; V1 is used only when V2 is not configured. -/
def updateTask (f : Facade) (env : Env) (task : TaskData) :
    Except FErr TaskData × List UpCall :=
  if f.inited then
    if f.hasV2 then
      match env.v2BatchUpdateTask task.id with
      | Except.error e => (Except.error (FErr.upstream e), [UpCall.v2BatchUpdateTask task.id])
      | Except.ok _ =>
        let r := getTask f env task.id (some task.projectId)
        (r.1, UpCall.v2BatchUpdateTask task.id :: r.2)
    else if f.hasV1 then
      match env.v1UpdateTask task.projectId task.id with
      | Except.ok d => (Except.ok d, [UpCall.v1UpdateTask task.projectId task.id])
      | Except.error e =>
        (Except.error (FErr.upstream e), [UpCall.v1UpdateTask task.projectId task.id])
    else (Except.error (FErr.unavailable "Could not update task" "update_task"), [])
  else (Except.error (FErr.configErr notInitMsg), [])

/-- `UnifiedTickTickAPI.complete_task`: V1 first (dedicated endpoint), V2
status mutation only when V1 is not configured. -/
def completeTaskOp (f : Facade) (env : Env) (taskId projectId : String) :
    Except FErr Unit × List UpCall :=
  if f.inited then
    if f.hasV1 then
      match env.v1CompleteTask projectId taskId with
      | Except.ok _ => (Except.ok (), [UpCall.v1CompleteTask projectId taskId])
      | Except.error e =>
        (Except.error (FErr.upstream e), [UpCall.v1CompleteTask projectId taskId])
    else if f.hasV2 then
      match env.v2UpdateTaskStatus taskId projectId with
      | Except.ok _ => (Except.ok (), [UpCall.v2UpdateTaskStatus taskId projectId])
      | Except.error e =>
        (Except.error (FErr.upstream e), [UpCall.v2UpdateTaskStatus taskId projectId])
    else (Except.error (FErr.unavailable "Could not complete task" "complete_task"), [])
  else (Except.error (FErr.configErr notInitMsg), [])

/-- `UnifiedTickTickAPI.delete_task`: V2 first, V1 only when V2 is not
configured. -/
def deleteTask (f : Facade) (env : Env) (taskId projectId : String) :
    Except FErr Unit × List UpCall :=
  if f.inited then
    if f.hasV2 then
      match env.v2DeleteTask projectId taskId with
      | Except.ok _ => (Except.ok (), [UpCall.v2DeleteTask projectId taskId])
      | Except.error e =>
        (Except.error (FErr.upstream e), [UpCall.v2DeleteTask projectId taskId])
    else if f.hasV1 then
      match env.v1DeleteTask projectId taskId with
      | Except.ok _ => (Except.ok (), [UpCall.v1DeleteTask projectId taskId])
      | Except.error e =>
        (Except.error (FErr.upstream e), [UpCall.v1DeleteTask projectId taskId])
    else (Except.error (FErr.unavailable "Could not delete task" "delete_task"), [])
  else (Except.error (FErr.configErr notInitMsg), [])

/-- `UnifiedTickTickAPI.move_task`: calls the V2 client unconditionally. -/
def moveTask (f : Facade) (env : Env) (taskId fromProjectId toProjectId : String) :
    Except FErr Unit × List UpCall :=
  if f.inited then
    match env.v2MoveTask taskId fromProjectId toProjectId with
    | Except.ok _ => (Except.ok (), [UpCall.v2MoveTask taskId fromProjectId toProjectId])
    | Except.error e =>
      (Except.error (FErr.upstream e), [UpCall.v2MoveTask taskId fromProjectId toProjectId])
  else (Except.error (FErr.configErr notInitMsg), [])

/-- `UnifiedTickTickAPI.sync_all`: calls the V2 client unconditionally. -/
def syncAll (f : Facade) (env : Env) : Except FErr SyncState × List UpCall :=
  if f.inited then
    match env.v2Sync with
    | Except.ok st => (Except.ok st, [UpCall.v2Sync])
    | Except.error e => (Except.error (FErr.upstream e), [UpCall.v2Sync])
  else (Except.error (FErr.configErr notInitMsg), [])

/-- `UnifiedTickTickAPI.list_tags`: reads the tags out of a V2 full-state
sync, calling the V2 client unconditionally. -/
def listTagsOp (f : Facade) (env : Env) : Except FErr (List TagData) × List UpCall :=
  if f.inited then
    match env.v2Sync with
    | Except.ok st => (Except.ok st.tags, [UpCall.v2Sync])
    | Except.error e => (Except.error (FErr.upstream e), [UpCall.v2Sync])
  else (Except.error (FErr.configErr notInitMsg), [])

/-- `UnifiedTickTickAPI.get_project`: V1 first (dedicated endpoint); when V1
is not configured, scan a V2 full-state sync by id. -/
def getProject (f : Facade) (env : Env) (projectId : String) :
    Except FErr ProjData × List UpCall :=
  if f.inited then
    if f.hasV1 then
      match env.v1GetProject projectId with
      | Except.ok d => (Except.ok d, [UpCall.v1GetProject projectId])
      | Except.error e => (Except.error (FErr.upstream e), [UpCall.v1GetProject projectId])
    else if f.hasV2 then
      match env.v2Sync with
      | Except.ok st =>
        match st.projectProfiles.find? (fun p => p.id = projectId) with
        | some p => (Except.ok p, [UpCall.v2Sync])
        | none =>
          (Except.error (FErr.unavailable "Could not get project" "get_project"), [UpCall.v2Sync])
      | Except.error e => (Except.error (FErr.upstream e), [UpCall.v2Sync])
    else (Except.error (FErr.unavailable "Could not get project" "get_project"), [])
  else (Except.error (FErr.configErr notInitMsg), [])

/-- The V1 leg of `create_project`. -/
def createProjectV1 (f : Facade) (env : Env) (name : String) (tr : List UpCall) :
    Except FErr ProjData × List UpCall :=
  if f.hasV1 then
    match env.v1CreateProject name with
    | Except.ok d => (Except.ok d, tr ++ [UpCall.v1CreateProject name])
    | Except.error e => (Except.error (FErr.upstream e), tr ++ [UpCall.v1CreateProject name])
  else (Except.error (FErr.unavailable "Could not create project" "create_project"), tr)

/-- `UnifiedTickTickAPI.create_project`: write through V2, pull the generated
id out of `id2etag`, and if one is present immediately re-read the project
via `get_project`; fall through to V1 when V2 is absent or the
acknowledgment had no id. -/
def createProject (f : Facade) (env : Env) (name : String) :
    Except FErr ProjData × List UpCall :=
  if f.inited then
    if f.hasV2 then
      match env.v2CreateProject name with
      | Except.error e => (Except.error (FErr.upstream e), [UpCall.v2CreateProject name])
      | Except.ok ids =>
        match ids.head? with
        | some pid =>
          let r := getProject f env pid
          (r.1, UpCall.v2CreateProject name :: r.2)
        | none => createProjectV1 f env name [UpCall.v2CreateProject name]
    else createProjectV1 f env name []
  else (Except.error (FErr.configErr notInitMsg), [])

/-- `UnifiedTickTickAPI.delete_project`: V2 first, V1 only when V2 is not
configured. -/
def deleteProject (f : Facade) (env : Env) (projectId : String) :
    Except FErr Unit × List UpCall :=
  if f.inited then
    if f.hasV2 then
      match env.v2DeleteProject projectId with
      | Except.ok _ => (Except.ok (), [UpCall.v2DeleteProject projectId])
      | Except.error e => (Except.error (FErr.upstream e), [UpCall.v2DeleteProject projectId])
    else if f.hasV1 then
      match env.v1DeleteProject projectId with
      | Except.ok _ => (Except.ok (), [UpCall.v1DeleteProject projectId])
      | Except.error e => (Except.error (FErr.upstream e), [UpCall.v1DeleteProject projectId])
    else (Except.error (FErr.unavailable "Could not delete project" "delete_project"), [])
  else (Except.error (FErr.configErr notInitMsg), [])

end Unified

namespace Unified

/-- Result payload of a façade operation (for the uniform dispatcher). -/
inductive FOut
  | task (d : TaskData)
  | proj (p : ProjData)
  | tagList (l : List TagData)
  | syncData (s : SyncState)
  | unit
  deriving DecidableEq

/-- The façade operations modelled here, with their arguments. -/
inductive FacadeOp
  | opGetTask (taskId : String) (projectId : Option String)
  | opCreateTask (title : String) (projectId : Option String)
  | opUpdateTask (task : TaskData)
  | opCompleteTask (taskId projectId : String)
  | opDeleteTask (taskId projectId : String)
  | opMoveTask (taskId fromProjectId toProjectId : String)
  | opSyncAll
  | opListTags
  | opGetProject (projectId : String)
  | opCreateProject (name : String)
  | opDeleteProject (projectId : String)
  deriving DecidableEq

/-- Uniform dispatcher over the modelled façade operations. -/
def runOp (f : Facade) (env : Env) : FacadeOp → Except FErr FOut × List UpCall
  | FacadeOp.opGetTask tid pid =>
    let r := getTask f env tid pid
    (r.1.map FOut.task, r.2)
  | FacadeOp.opCreateTask title pid =>
    let r := createTask f env title pid
    (r.1.map FOut.task, r.2)
  | FacadeOp.opUpdateTask t =>
    let r := updateTask f env t
    (r.1.map FOut.task, r.2)
  | FacadeOp.opCompleteTask tid pid =>
    let r := completeTaskOp f env tid pid
    (r.1.map (fun _ => FOut.unit), r.2)
  | FacadeOp.opDeleteTask tid pid =>
    let r := deleteTask f env tid pid
    (r.1.map (fun _ => FOut.unit), r.2)
  | FacadeOp.opMoveTask tid fromId toId =>
    let r := moveTask f env tid fromId toId
    (r.1.map (fun _ => FOut.unit), r.2)
  | FacadeOp.opSyncAll =>
    let r := syncAll f env
    (r.1.map FOut.syncData, r.2)
  | FacadeOp.opListTags =>
    let r := listTagsOp f env
    (r.1.map FOut.tagList, r.2)
  | FacadeOp.opGetProject pid =>
    let r := getProject f env pid
    (r.1.map FOut.proj, r.2)
  | FacadeOp.opCreateProject name =>
    let r := createProject f env name
    (r.1.map FOut.proj, r.2)
  | FacadeOp.opDeleteProject pid =>
    let r := deleteProject f env pid
    (r.1.map (fun _ => FOut.unit), r.2)

/-- Outcomes of the constructions and checks performed by `initialize()`:
whether each client constructor raised, whether V2 credentials were supplied
and authentication succeeded, and what `verify_clients()` reported. -/
structure InitEnv where
  v1ConstructOk : Bool
  v1ConstructError : String
  v2ConstructOk : Bool
  v2ConstructError : String
  hasV2Credentials : Bool
  v2AuthOk : Bool
  v2AuthError : String
  v2InboxId : String
  verifyV1 : Bool
  verifyV2 : Bool
  deriving DecidableEq

/-- The error strings `initialize()` accumulates, in source order: the V1
construction failure, the V2 construction/credentials/authentication
failure, then the two verification failures. -/
def initErrors (env : InitEnv) : List String :=
  (if env.v1ConstructOk then [] else ["V1 initialization failed: " ++ env.v1ConstructError])
  ++ (if env.v2ConstructOk then
        (if env.hasV2Credentials then
          (if env.v2AuthOk then [] else ["V2 initialization failed: " ++ env.v2AuthError])
         else ["V2 credentials not provided"])
      else ["V2 initialization failed: " ++ env.v2ConstructError])
  ++ (if env.verifyV1 then [] else ["V1 authentication verification failed"])
  ++ (if env.verifyV2 then [] else ["V2 authentication verification failed"])

/-- Modelled from the spec: `unified/router.py` is not in the repository
snapshot.  Section 4.1: `has_a` holds iff the client was constructed
successfully. -/
def routerHasV1 (env : InitEnv) : Bool := env.v1ConstructOk

/-- Modelled from the spec: section 4.1: `has_b` holds iff the session client
was constructed successfully and its authentication succeeded. -/
def routerHasV2 (env : InitEnv) : Bool :=
  env.v2ConstructOk && (env.hasV2Credentials && env.v2AuthOk)

/-- `UnifiedTickTickAPI.initialize`: a no-op when already initialized;
otherwise construct both clients, authenticate V2, verify, and either become
ready (both usable) or raise a single `TickTickConfigurationError` joining
every accumulated error string. -/
def initAPI (f : Facade) (env : InitEnv) : Except FErr Facade :=
  if f.inited then Except.ok f
  else if routerHasV1 env && routerHasV2 env then
    Except.ok { inited := true, hasV1 := routerHasV1 env, hasV2 := routerHasV2 env,
                inboxId := some env.v2InboxId }
  else
    Except.error (FErr.configErr
      ("Both V1 and V2 APIs are required. " ++ String.intercalate ("; ") (initErrors env)))

end Unified

/-- An environment in which every upstream call succeeds. -/
def envOk : Unified.Env where
  v2GetTask := fun t => Except.ok { id := t, projectId := "p1", title := "T" }
  v1GetTask := fun p t => Except.ok { id := t, projectId := p, title := "T" }
  v2CreateTask := fun _ _ => Except.ok ["t9"]
  v1CreateTask := fun p t => Except.ok { id := "t9", projectId := p, title := t }
  v2BatchUpdateTask := fun _ => Except.ok ()
  v1UpdateTask := fun p t => Except.ok { id := t, projectId := p, title := "T" }
  v1CompleteTask := fun _ _ => Except.ok ()
  v2UpdateTaskStatus := fun _ _ => Except.ok ()
  v2DeleteTask := fun _ _ => Except.ok ()
  v1DeleteTask := fun _ _ => Except.ok ()
  v2Sync := Except.ok { projectProfiles := [{ id := "p1", name := "P" }],
                        tags := [{ name := "urgent" }] }
  v2MoveTask := fun _ _ _ => Except.ok ()
  v1GetProject := fun p => Except.ok { id := p, name := "P" }
  v2CreateProject := fun _ => Except.ok ["p9"]
  v1CreateProject := fun n => Except.ok { id := "p9", name := n }
  v2DeleteProject := fun _ => Except.ok ()
  v1DeleteProject := fun _ => Except.ok ()

/-- A fully configured, initialized façade. -/
def fReady : Unified.Facade :=
  { inited := true, hasV1 := true, hasV2 := true, inboxId := some "inbox1" }

/-- A façade that was never initialized. -/
def fNotReady : Unified.Facade :=
  { inited := false, hasV1 := true, hasV2 := true, inboxId := some "inbox1" }

/-- Is the result a `TickTickAPIUnavailableError`? -/
def isUnavailableRes {α : Type} : Except Unified.FErr α → Bool
  | Except.error (Unified.FErr.unavailable _ _) => true
  | _ => false

/-- Claim C5: every modelled façade operation, invoked before `initialize()`
has completed or after `close()`, raises `TickTickConfigurationError` and
issues no upstream call. -/
theorem ops_require_initialization (f f2 : Unified.Facade) (env : Unified.Env)
    (op : Unified.FacadeOp) (h : f.inited = false) :
    Unified.runOp f env op
      = (Except.error (Unified.FErr.configErr Unified.notInitMsg), [])
    ∧ Unified.runOp (Unified.closeAPI f2) env op
      = (Except.error (Unified.FErr.configErr Unified.notInitMsg), []) := by
  constructor <;>
    cases op <;>
      simp [Unified.runOp, Unified.getTask, Unified.createTask, Unified.updateTask,
        Unified.completeTaskOp, Unified.deleteTask, Unified.moveTask, Unified.syncAll,
        Unified.listTagsOp, Unified.getProject, Unified.createProject,
        Unified.deleteProject, Unified.closeAPI, Except.map, h]

/-- Witness for C5: a concrete uninitialized façade and a concrete operation. -/
theorem ops_require_initialization_witness :
    Unified.runOp fNotReady envOk (Unified.FacadeOp.opListTags)
      = (Except.error (Unified.FErr.configErr Unified.notInitMsg), [])
    ∧ Unified.runOp (Unified.closeAPI fReady) envOk (Unified.FacadeOp.opListTags)
      = (Except.error (Unified.FErr.configErr Unified.notInitMsg), []) :=
  ops_require_initialization fNotReady fReady envOk (Unified.FacadeOp.opListTags) rfl

/-- With V2 configured, the first upstream call of `get_task` is always the
V2 read of the requested task id. -/
theorem getTask_head_v2 (f : Unified.Facade) (env : Unified.Env) (tid : String)
    (pid? : Option String) (hi : f.inited = true) (h2 : f.hasV2 = true) :
    (Unified.getTask f env tid pid?).2.head? = some (Unified.UpCall.v2GetTask tid) := by
  cases henv : env.v2GetTask tid with
  | ok d => simp [Unified.getTask, hi, h2, henv]
  | error e =>
    by_cases ha : Unified.UpErr.isAPIError e
    · cases pid? with
      | none => simp [Unified.getTask, Unified.getTaskV1, hi, h2, henv, ha]
      | some p =>
        by_cases h1 : f.hasV1
        · cases henv2 : env.v1GetTask p tid <;>
            simp [Unified.getTask, Unified.getTaskV1, hi, h2, henv, ha, h1, henv2]
        · simp [Unified.getTask, Unified.getTaskV1, hi, h2, henv, ha, h1]
    · simp [Unified.getTask, hi, h2, henv, ha]

/-- Claim C3: `get_task` tries V2 first without needing a project id; on V2
success no other upstream is consulted; V1 is consulted only after an
upstream `TickTickAPIError` from V2, never merely because the project id is
absent; and when V2 fails with no project id supplied the call surfaces an
error without consulting V1. -/
theorem get_task_v2_first_v1_only_on_error (f : Unified.Facade) (env : Unified.Env)
    (tid : String) (pid? : Option String) (hi : f.inited = true) (h2 : f.hasV2 = true) :
    ((Unified.getTask f env tid pid?).2.head? = some (Unified.UpCall.v2GetTask tid))
  ∧ (∀ d, env.v2GetTask tid = Except.ok d →
      Unified.getTask f env tid pid? = (Except.ok d, [Unified.UpCall.v2GetTask tid]))
  ∧ (∀ p t, Unified.UpCall.v1GetTask p t ∈ (Unified.getTask f env tid pid?).2 →
      ∃ e, env.v2GetTask tid = Except.error e ∧ Unified.UpErr.isAPIError e = true)
  ∧ (pid? = none →
      (∀ p t, Unified.UpCall.v1GetTask p t ∉ (Unified.getTask f env tid pid?).2)
      ∧ (∀ e, env.v2GetTask tid = Except.error e →
          ∃ e2, (Unified.getTask f env tid pid?).1 = Except.error e2)) := by
  refine ⟨getTask_head_v2 f env tid pid? hi h2, ?_, ?_, ?_⟩
  · intro d hd
    simp [Unified.getTask, hi, h2, hd]
  · intro p t hmem
    cases henv : env.v2GetTask tid with
    | ok d =>
      rw [show Unified.getTask f env tid pid?
          = (Except.ok d, [Unified.UpCall.v2GetTask tid]) by
        simp [Unified.getTask, hi, h2, henv]] at hmem
      simp at hmem
    | error e =>
      by_cases ha : Unified.UpErr.isAPIError e
      · exact ⟨e, rfl, ha⟩
      · rw [show Unified.getTask f env tid pid?
            = (Except.error (Unified.FErr.upstream e), [Unified.UpCall.v2GetTask tid]) by
          simp [Unified.getTask, hi, h2, henv, ha]] at hmem
        simp at hmem
  · rintro rfl
    constructor
    · intro p t hmem
      cases henv : env.v2GetTask tid with
      | ok d =>
        rw [show Unified.getTask f env tid none
            = (Except.ok d, [Unified.UpCall.v2GetTask tid]) by
          simp [Unified.getTask, hi, h2, henv]] at hmem
        simp at hmem
      | error e =>
        by_cases ha : Unified.UpErr.isAPIError e
        · rw [show Unified.getTask f env tid none
              = (Except.error (Unified.FErr.unavailable "Could not get task" "get_task"),
                 [Unified.UpCall.v2GetTask tid]) by
            simp [Unified.getTask, Unified.getTaskV1, hi, h2, henv, ha]] at hmem
          simp at hmem
        · rw [show Unified.getTask f env tid none
              = (Except.error (Unified.FErr.upstream e), [Unified.UpCall.v2GetTask tid]) by
            simp [Unified.getTask, hi, h2, henv, ha]] at hmem
          simp at hmem
    · intro e henv
      by_cases ha : Unified.UpErr.isAPIError e
      · exact ⟨Unified.FErr.unavailable "Could not get task" "get_task", by
          simp [Unified.getTask, Unified.getTaskV1, hi, h2, henv, ha]⟩
      · exact ⟨Unified.FErr.upstream e, by
          simp [Unified.getTask, hi, h2, henv, ha]⟩

/-- Witness for C3 at a concrete environment whose V2 read fails with an API
error and no project id is supplied. -/
theorem get_task_v2_first_v1_only_on_error_witness :
    ((Unified.getTask fReady envOk ("t1") none).2.head?
        = some (Unified.UpCall.v2GetTask ("t1")))
    ∧ (∀ p t, Unified.UpCall.v1GetTask p t ∉ (Unified.getTask fReady envOk ("t1") none).2) :=
  ⟨(get_task_v2_first_v1_only_on_error fReady envOk ("t1") none rfl rfl).1,
   ((get_task_v2_first_v1_only_on_error fReady envOk ("t1") none rfl rfl).2.2.2 rfl).1⟩

/-- Claim C2: when a create goes through V2 and its acknowledgment carries a
generated id, the façade immediately re-reads the created object with that
same id (`get_task` / `get_project`) and returns exactly what that read
returns, not the write acknowledgment. -/
theorem create_returns_read_after_write (f : Unified.Facade) (env : Unified.Env)
    (hi : f.inited = true) (h2 : f.hasV2 = true) :
    (∀ title pid ids tid, env.v2CreateTask pid title = Except.ok ids →
      ids.head? = some tid →
      Unified.createTask f env title (some pid)
        = ((Unified.getTask f env tid (some pid)).1,
           Unified.UpCall.v2CreateTask pid title :: (Unified.getTask f env tid (some pid)).2)
      ∧ (Unified.getTask f env tid (some pid)).2.head?
          = some (Unified.UpCall.v2GetTask tid))
  ∧ (∀ name ids pid, env.v2CreateProject name = Except.ok ids →
      ids.head? = some pid →
      Unified.createProject f env name
        = ((Unified.getProject f env pid).1,
           Unified.UpCall.v2CreateProject name :: (Unified.getProject f env pid).2)) := by
  constructor
  · intro title pid ids tid hack hhead
    refine ⟨?_, getTask_head_v2 f env tid (some pid) hi h2⟩
    simp [Unified.createTask, hi, h2, hack, hhead]
  · intro name ids pid hack hhead
    simp [Unified.createProject, hi, h2, hack, hhead]

/-- Witness for C2: a concrete environment in which the V2 writes acknowledge
with a one-element `id2etag`. -/
theorem create_returns_read_after_write_witness :
    Unified.createTask fReady envOk ("X") (some ("p1"))
      = ((Unified.getTask fReady envOk ("t9") (some ("p1"))).1,
         Unified.UpCall.v2CreateTask ("p1") ("X")
           :: (Unified.getTask fReady envOk ("t9") (some ("p1"))).2)
    ∧ Unified.createProject fReady envOk ("N")
      = ((Unified.getProject fReady envOk ("p9")).1,
         Unified.UpCall.v2CreateProject ("N") :: (Unified.getProject fReady envOk ("p9")).2) :=
  ⟨((create_returns_read_after_write fReady envOk rfl rfl).1
      ("X") ("p1") ["t9"] ("t9") rfl rfl).1,
   (create_returns_read_after_write fReady envOk rfl rfl).2 ("N") ["p9"] ("p9") rfl rfl⟩

/-- Claim C10: when the V2 create succeeds but its acknowledgment carries an
empty `id2etag`, `create_task` does not return the V2 result: it issues a
second create against V1, so one call writes to both upstreams. -/
theorem create_task_empty_ack_double_write (f : Unified.Facade) (env : Unified.Env)
    (title pid : String) (hi : f.inited = true) (h2 : f.hasV2 = true)
    (h1 : f.hasV1 = true) (hack : env.v2CreateTask pid title = Except.ok []) :
    (Unified.createTask f env title (some pid)).2
      = [Unified.UpCall.v2CreateTask pid title, Unified.UpCall.v1CreateTask pid title]
    ∧ (Unified.createTask f env title (some pid)).1
      = (match env.v1CreateTask pid title with
         | Except.ok d => Except.ok d
         | Except.error e => Except.error (Unified.FErr.upstream e)) := by
  cases henv : env.v1CreateTask pid title <;>
    simp [Unified.createTask, Unified.createTaskV1, hi, h2, h1, hack, henv]

/-- An environment in which the V2 task create succeeds with an empty
acknowledgment. -/
def envEmptyAck : Unified.Env :=
  { envOk with v2CreateTask := fun _ _ => Except.ok [] }

/-- Witness for C10: a concrete input on which both upstreams receive a
create write in one `create_task` call. -/
theorem create_task_empty_ack_double_write_witness :
    (Unified.createTask fReady envEmptyAck ("X") (some ("p1"))).2
      = [Unified.UpCall.v2CreateTask ("p1") ("X"), Unified.UpCall.v1CreateTask ("p1") ("X")]
    ∧ (Unified.createTask fReady envEmptyAck ("X") (some ("p1"))).1
      = (match envEmptyAck.v1CreateTask ("p1") ("X") with
         | Except.ok d => Except.ok d
         | Except.error e => Except.error (Unified.FErr.upstream e)) :=
  create_task_empty_ack_double_write fReady envEmptyAck ("X") ("p1") rfl rfl rfl rfl

/-- Claim C7: `initialize()` failures surface as exactly one configuration
error joining every accumulated error string; in particular, with valid V1
credentials but missing V2 credentials the single raised error mentions both
the missing-credentials condition and the verification failure. -/
theorem init_raises_single_joined_error (f : Unified.Facade) (env : Unified.InitEnv) :
    (f.inited = false → env.v1ConstructOk = true → env.v2ConstructOk = true →
     env.hasV2Credentials = false → env.verifyV1 = true → env.verifyV2 = false →
      Unified.initAPI f env = Except.error (Unified.FErr.configErr
        ("Both V1 and V2 APIs are required. "
          ++ "V2 credentials not provided; V2 authentication verification failed")))
  ∧ (∀ e, Unified.initAPI f env = Except.error e →
      e = Unified.FErr.configErr
        ("Both V1 and V2 APIs are required. "
          ++ String.intercalate ("; ") (Unified.initErrors env))) := by
  constructor
  · intro hf h1 h2 h3 h4 h5
    simp [Unified.initAPI, Unified.routerHasV1, Unified.routerHasV2, Unified.initErrors,
      hf, h1, h2, h3, h4, h5, String.intercalate]
    decide
  · intro e he
    by_cases hf : f.inited
    · simp [Unified.initAPI, hf] at he
    · by_cases hr : Unified.routerHasV1 env && Unified.routerHasV2 env
      · simp [Unified.initAPI, hf, hr] at he
      · simp [Unified.initAPI, hf, hr] at he
        exact he.symm

/-- A concrete initialization run: V1 constructs and verifies, V2 constructs
but has no credentials. -/
def initEnvW : Unified.InitEnv where
  v1ConstructOk := true
  v1ConstructError := ""
  v2ConstructOk := true
  v2ConstructError := ""
  hasV2Credentials := false
  v2AuthOk := false
  v2AuthError := ""
  v2InboxId := "inbox1"
  verifyV1 := true
  verifyV2 := false

/-- Witness for C7 at the concrete initialization run. -/
theorem init_raises_single_joined_error_witness :
    Unified.initAPI fNotReady initEnvW = Except.error (Unified.FErr.configErr
      ("Both V1 and V2 APIs are required. "
        ++ "V2 credentials not provided; V2 authentication verification failed")) :=
  (init_raises_single_joined_error fNotReady initEnvW).1 rfl rfl rfl rfl rfl rfl

/-- An environment in which the V2 task delete fails with an API error while
everything else (in particular the V1 delete) succeeds. -/
def envDelFail : Unified.Env :=
  { envOk with v2DeleteTask := fun _ _ => Except.error Unified.UpErr.apiError }

/-- An initialized façade with only V1 usable. -/
def fOnlyV1 : Unified.Facade :=
  { inited := true, hasV1 := true, hasV2 := false, inboxId := some "inbox1" }

/-- An initialized façade with no usable upstream. -/
def fNone : Unified.Facade :=
  { inited := true, hasV1 := false, hasV2 := false, inboxId := some "inbox1" }

/-- Counterexample to C1: with both upstreams configured, the V1 fallback
available and succeeding, an upstream failure of the primary V2 delete is
propagated as-is — the fallback is never attempted and no
`TickTickAPIUnavailableError` is raised. -/
theorem write_fallback_on_failure_cex :
    Unified.deleteTask fReady envDelFail ("t1") ("p1")
      = (Except.error (Unified.FErr.upstream Unified.UpErr.apiError),
         [Unified.UpCall.v2DeleteTask ("p1") ("t1")])
    ∧ fReady.hasV1 = true
    ∧ envDelFail.v1DeleteTask ("p1") ("t1") = Except.ok ()
    ∧ isUnavailableRes (Unified.deleteTask fReady envDelFail ("t1") ("p1")).1 = false :=
  ⟨rfl, rfl, rfl, rfl⟩

/-- Claim C1 as amended: each write operation with a defined fallback attempts
its primary upstream first, but the fallback is attempted only when the
primary is not configured (for `create_task` also when the V2 acknowledgment
lists no id, see C10); an upstream-level failure of an attempted primary
propagates with no fallback attempt; and the single
`TickTickAPIUnavailableError` naming the operation is raised exactly when
neither upstream is configured. -/
theorem write_ops_fallback_only_on_capability (f : Unified.Facade) (env : Unified.Env)
    (hi : f.inited = true) :
    (∀ tid pid, f.hasV2 = true →
      (Unified.deleteTask f env tid pid).2 = [Unified.UpCall.v2DeleteTask pid tid])
  ∧ (∀ tid pid e, f.hasV2 = true → env.v2DeleteTask pid tid = Except.error e →
      Unified.deleteTask f env tid pid
        = (Except.error (Unified.FErr.upstream e), [Unified.UpCall.v2DeleteTask pid tid]))
  ∧ (∀ tid pid, f.hasV2 = false → f.hasV1 = true →
      (Unified.deleteTask f env tid pid).2 = [Unified.UpCall.v1DeleteTask pid tid])
  ∧ (∀ tid pid, f.hasV2 = false → f.hasV1 = false →
      Unified.deleteTask f env tid pid
        = (Except.error
            (Unified.FErr.unavailable ("Could not delete task") ("delete_task")), []))
  ∧ (∀ tid pid, f.hasV1 = true →
      (Unified.completeTaskOp f env tid pid).2 = [Unified.UpCall.v1CompleteTask pid tid])
  ∧ (∀ tid pid e, f.hasV1 = true → env.v1CompleteTask pid tid = Except.error e →
      Unified.completeTaskOp f env tid pid
        = (Except.error (Unified.FErr.upstream e), [Unified.UpCall.v1CompleteTask pid tid]))
  ∧ (∀ tid pid, f.hasV1 = false → f.hasV2 = true →
      (Unified.completeTaskOp f env tid pid).2 = [Unified.UpCall.v2UpdateTaskStatus tid pid])
  ∧ (∀ tid pid, f.hasV1 = false → f.hasV2 = false →
      Unified.completeTaskOp f env tid pid
        = (Except.error
            (Unified.FErr.unavailable ("Could not complete task") ("complete_task")), []))
  ∧ (∀ t e, f.hasV2 = true → env.v2BatchUpdateTask t.id = Except.error e →
      Unified.updateTask f env t
        = (Except.error (Unified.FErr.upstream e), [Unified.UpCall.v2BatchUpdateTask t.id]))
  ∧ (∀ t : Unified.TaskData, f.hasV2 = false → f.hasV1 = true →
      (Unified.updateTask f env t).2 = [Unified.UpCall.v1UpdateTask t.projectId t.id])
  ∧ (∀ t : Unified.TaskData, f.hasV2 = false → f.hasV1 = false →
      Unified.updateTask f env t
        = (Except.error
            (Unified.FErr.unavailable ("Could not update task") ("update_task")), []))
  ∧ (∀ title pid e, f.hasV2 = true → env.v2CreateTask pid title = Except.error e →
      Unified.createTask f env title (some pid)
        = (Except.error (Unified.FErr.upstream e), [Unified.UpCall.v2CreateTask pid title]))
  ∧ (∀ title pid, f.hasV2 = false → f.hasV1 = true →
      (Unified.createTask f env title (some pid)).2 = [Unified.UpCall.v1CreateTask pid title])
  ∧ (∀ title pid, f.hasV2 = false → f.hasV1 = false →
      Unified.createTask f env title (some pid)
        = (Except.error
            (Unified.FErr.unavailable ("Could not create task") ("create_task")), []))
  ∧ (∀ name e, f.hasV2 = true → env.v2CreateProject name = Except.error e →
      Unified.createProject f env name
        = (Except.error (Unified.FErr.upstream e), [Unified.UpCall.v2CreateProject name]))
  ∧ (∀ name, f.hasV2 = false → f.hasV1 = true →
      (Unified.createProject f env name).2 = [Unified.UpCall.v1CreateProject name])
  ∧ (∀ name, f.hasV2 = false → f.hasV1 = false →
      Unified.createProject f env name
        = (Except.error
            (Unified.FErr.unavailable ("Could not create project") ("create_project")), []))
  ∧ (∀ pid, f.hasV2 = true →
      (Unified.deleteProject f env pid).2 = [Unified.UpCall.v2DeleteProject pid])
  ∧ (∀ pid e, f.hasV2 = true → env.v2DeleteProject pid = Except.error e →
      Unified.deleteProject f env pid
        = (Except.error (Unified.FErr.upstream e), [Unified.UpCall.v2DeleteProject pid]))
  ∧ (∀ pid, f.hasV2 = false → f.hasV1 = true →
      (Unified.deleteProject f env pid).2 = [Unified.UpCall.v1DeleteProject pid])
  ∧ (∀ pid, f.hasV2 = false → f.hasV1 = false →
      Unified.deleteProject f env pid
        = (Except.error
            (Unified.FErr.unavailable ("Could not delete project") ("delete_project")), [])) := by
  refine ⟨?_, ?_, ?_, ?_, ?_, ?_, ?_, ?_, ?_, ?_, ?_, ?_, ?_, ?_, ?_, ?_, ?_, ?_, ?_, ?_, ?_⟩
  · intro tid pid h2
    cases henv : env.v2DeleteTask pid tid <;> simp [Unified.deleteTask, hi, h2, henv]
  · intro tid pid e h2 henv
    simp [Unified.deleteTask, hi, h2, henv]
  · intro tid pid h2 h1
    cases henv : env.v1DeleteTask pid tid <;> simp [Unified.deleteTask, hi, h2, h1, henv]
  · intro tid pid h2 h1
    simp [Unified.deleteTask, hi, h2, h1]
  · intro tid pid h1
    cases henv : env.v1CompleteTask pid tid <;> simp [Unified.completeTaskOp, hi, h1, henv]
  · intro tid pid e h1 henv
    simp [Unified.completeTaskOp, hi, h1, henv]
  · intro tid pid h1 h2
    cases henv : env.v2UpdateTaskStatus tid pid <;>
      simp [Unified.completeTaskOp, hi, h1, h2, henv]
  · intro tid pid h1 h2
    simp [Unified.completeTaskOp, hi, h1, h2]
  · intro t e h2 henv
    simp [Unified.updateTask, hi, h2, henv]
  · intro t h2 h1
    cases henv : env.v1UpdateTask t.projectId t.id <;>
      simp [Unified.updateTask, hi, h2, h1, henv]
  · intro t h2 h1
    simp [Unified.updateTask, hi, h2, h1]
  · intro title pid e h2 henv
    simp [Unified.createTask, hi, h2, henv]
  · intro title pid h2 h1
    cases henv : env.v1CreateTask pid title <;>
      simp [Unified.createTask, Unified.createTaskV1, hi, h2, h1, henv]
  · intro title pid h2 h1
    simp [Unified.createTask, Unified.createTaskV1, hi, h2, h1]
  · intro name e h2 henv
    simp [Unified.createProject, hi, h2, henv]
  · intro name h2 h1
    cases henv : env.v1CreateProject name <;>
      simp [Unified.createProject, Unified.createProjectV1, hi, h2, h1, henv]
  · intro name h2 h1
    simp [Unified.createProject, Unified.createProjectV1, hi, h2, h1]
  · intro pid h2
    cases henv : env.v2DeleteProject pid <;> simp [Unified.deleteProject, hi, h2, henv]
  · intro pid e h2 henv
    simp [Unified.deleteProject, hi, h2, henv]
  · intro pid h2 h1
    cases henv : env.v1DeleteProject pid <;> simp [Unified.deleteProject, hi, h2, h1, henv]
  · intro pid h2 h1
    simp [Unified.deleteProject, hi, h2, h1]

/-- Witness for the amended C1: the primary-failure propagation and the
no-upstream `TickTickAPIUnavailableError` case at concrete inputs. -/
theorem write_ops_fallback_only_on_capability_witness :
    Unified.deleteTask fReady envDelFail ("t2") ("p2")
      = (Except.error (Unified.FErr.upstream Unified.UpErr.apiError),
         [Unified.UpCall.v2DeleteTask ("p2") ("t2")])
    ∧ Unified.deleteTask fNone envOk ("t2") ("p2")
      = (Except.error
          (Unified.FErr.unavailable ("Could not delete task") ("delete_task")), []) :=
  ⟨(write_ops_fallback_only_on_capability fReady envDelFail rfl).2.1
      ("t2") ("p2") Unified.UpErr.apiError rfl rfl,
   (write_ops_fallback_only_on_capability fNone envOk rfl).2.2.2.1 ("t2") ("p2") rfl rfl⟩

/-- An environment in which the V2 full-state sync and move fail with an API
error. -/
def envSyncFail : Unified.Env :=
  { envOk with v2Sync := Except.error Unified.UpErr.apiError,
               v2MoveTask := fun _ _ _ => Except.error Unified.UpErr.apiError }

/-- Counterexample to C4: with V2 unusable (`has_v2` false, sync failing) a
B-only operation does not raise `TickTickAPIUnavailableError`: it still
calls V2 and propagates V2's own error. -/
theorem b_only_unavailable_cex :
    fOnlyV1.hasV2 = false
    ∧ Unified.listTagsOp fOnlyV1 envSyncFail
        = (Except.error (Unified.FErr.upstream Unified.UpErr.apiError), [Unified.UpCall.v2Sync])
    ∧ isUnavailableRes (Unified.listTagsOp fOnlyV1 envSyncFail).1 = false :=
  ⟨rfl, rfl, rfl⟩

/-- Claim C4 as amended: B-only operations never raise
`TickTickAPIUnavailableError`.  Before initialization they raise
`TickTickConfigurationError` with no upstream call (and initialization
refuses a configuration with only upstream A); once initialized they call V2
unconditionally — without consulting `has_v2` — and a failing V2 surfaces as
V2's own propagated error. -/
theorem b_only_ops_propagate_b_errors (f : Unified.Facade) (env : Unified.Env) :
    (f.inited = false →
      Unified.listTagsOp f env
          = (Except.error (Unified.FErr.configErr Unified.notInitMsg), [])
      ∧ Unified.syncAll f env
          = (Except.error (Unified.FErr.configErr Unified.notInitMsg), [])
      ∧ ∀ t a b, Unified.moveTask f env t a b
          = (Except.error (Unified.FErr.configErr Unified.notInitMsg), []))
  ∧ (f.inited = true →
      (Unified.listTagsOp f env).2 = [Unified.UpCall.v2Sync]
      ∧ (Unified.syncAll f env).2 = [Unified.UpCall.v2Sync]
      ∧ ∀ t a b, (Unified.moveTask f env t a b).2 = [Unified.UpCall.v2MoveTask t a b])
  ∧ (∀ e, f.inited = true → env.v2Sync = Except.error e →
      (Unified.listTagsOp f env).1 = Except.error (Unified.FErr.upstream e)
      ∧ (Unified.syncAll f env).1 = Except.error (Unified.FErr.upstream e))
  ∧ (isUnavailableRes (Unified.listTagsOp f env).1 = false
     ∧ isUnavailableRes (Unified.syncAll f env).1 = false
     ∧ ∀ t a b, isUnavailableRes (Unified.moveTask f env t a b).1 = false) := by
  refine ⟨?_, ?_, ?_, ?_, ?_, ?_⟩
  · intro h
    exact ⟨by simp [Unified.listTagsOp, h], by simp [Unified.syncAll, h],
      fun t a b => by simp [Unified.moveTask, h]⟩
  · intro h
    refine ⟨?_, ?_, ?_⟩
    · cases henv : env.v2Sync <;> simp [Unified.listTagsOp, h, henv]
    · cases henv : env.v2Sync <;> simp [Unified.syncAll, h, henv]
    · intro t a b
      cases henv : env.v2MoveTask t a b <;> simp [Unified.moveTask, h, henv]
  · intro e h henv
    exact ⟨by simp [Unified.listTagsOp, h, henv], by simp [Unified.syncAll, h, henv]⟩
  · by_cases h : f.inited
    · cases henv : env.v2Sync <;> simp [Unified.listTagsOp, isUnavailableRes, h, henv]
    · simp [Unified.listTagsOp, isUnavailableRes, h]
  · by_cases h : f.inited
    · cases henv : env.v2Sync <;> simp [Unified.syncAll, isUnavailableRes, h, henv]
    · simp [Unified.syncAll, isUnavailableRes, h]
  · intro t a b
    by_cases h : f.inited
    · cases henv : env.v2MoveTask t a b <;>
        simp [Unified.moveTask, isUnavailableRes, h, henv]
    · simp [Unified.moveTask, isUnavailableRes, h]

/-- Witness for the amended C4: error propagation of the failing V2 sync at a
concrete façade and environment. -/
theorem b_only_ops_propagate_b_errors_witness :
    (Unified.listTagsOp fOnlyV1 envSyncFail).1
        = Except.error (Unified.FErr.upstream Unified.UpErr.apiError)
    ∧ (Unified.syncAll fOnlyV1 envSyncFail).1
        = Except.error (Unified.FErr.upstream Unified.UpErr.apiError) :=
  (b_only_ops_propagate_b_errors fOnlyV1 envSyncFail).2.2.1 Unified.UpErr.apiError rfl rfl
